import Mathlib

/-!
Verification of the LaTeX-compiler Lambda handler (`src/app.py`).

The handler is a single Python function `handler(event, context)` that
validates the request, writes the LaTeX source to a uniquely named `.tex`
file under `/tmp`, runs `pdflatex` twice, and returns a structured
response (200 with the base64-encoded PDF, 400 on missing input, 500 on
compilation failure or any unexpected exception).

We embed it shallowly: all external effects (the generated uuid, the
outcome of each file operation and each subprocess invocation) are
supplied by a `World` record, each fallible operation modelled as an
`Except String` value carrying the Python exception's `str(e)` text on
failure.  The handler becomes a pure function from `Event × World` to a
`Response` together with a trace of the side effects it performed, with
the Python `try/except` block modelled by `handlerInner` (the `try` body,
which may end in `.error`) wrapped by `handler` (the `except` clause).
-/

namespace LatexLambda

/-- The Lambda event payload.  The source only ever reads
`event.get('latex_source')`; `output_filename` appears in the request
schema but only in commented-out code, so the live handler never reads
it.  `none` models an absent key. -/
structure Event where
  latex_source : Option String
  output_filename : Option String
deriving Repr, DecidableEq

/-- Result of a completed `subprocess.run` call with
`capture_output=True, text=True`: exit code, captured stdout, captured
stderr. -/
structure ProcResult where
  returncode : Int
  stdout : String
  stderr : String
deriving Repr, DecidableEq

/-- The environment an invocation runs against: the freshly generated
uuid (as its string form) and the outcome of each effectful step, in
program order.  An `.error msg` means the corresponding Python call
raised an exception whose `str` is `msg` (e.g. a filesystem error on
`open`, or `FileNotFoundError` when the `pdflatex` binary is missing). -/
structure World where
  unique_id : String
  texWrite : Except String Unit
  run1 : Except String ProcResult
  run2 : Except String ProcResult
  logExists : Bool
  logRead : Except String String
  pdfRead : Except String (List Nat)
deriving Repr

/-- The structured response dictionary.  `headers` and `isBase64Encoded`
are `none` exactly when the Python dict literal omits those keys. -/
structure Response where
  statusCode : Nat
  body : String
  headers : Option (List (String × String)) := none
  isBase64Encoded : Option Bool := none
deriving Repr, DecidableEq

/-- The observable side effects of one invocation, in order. -/
inductive Effect where
  | writeTex (path : String) (content : String)
  | spawn (args : List String)
  | readLog (path : String)
  | readPdf (path : String)
deriving Repr, DecidableEq

/-- `working_dir = '/tmp'`. -/
def working_dir : String := "/tmp"

/-- `base_filename = f'document_{unique_id}'`. -/
def base_filename (id : String) : String := "document_" ++ id

/-- `os.path.join(working_dir, f'{base_filename}.tex')`. -/
def tex_file_path (id : String) : String :=
  working_dir ++ "/" ++ base_filename id ++ ".tex"

/-- `os.path.join(working_dir, f'{base_filename}.pdf')`. -/
def pdf_file_path (id : String) : String :=
  working_dir ++ "/" ++ base_filename id ++ ".pdf"

/-- `os.path.join(working_dir, f'{base_filename}.log')`. -/
def log_path (id : String) : String :=
  working_dir ++ "/" ++ base_filename id ++ ".log"

/-- The argument vector passed to `subprocess.run` for each of the two
compiler passes. -/
def pdflatex_args (id : String) : List String :=
  ["pdflatex", "-interaction=nonstopmode", "-halt-on-error",
   "-file-line-error", "-output-directory=" ++ working_dir,
   tex_file_path id]

/-- The RFC 4648 base64 alphabet, as used by `base64.b64encode`. -/
def b64alphabet : List Char :=
  "ABCDEFGHIJKLMNOPQRSTUVWXYZabcdefghijklmnopqrstuvwxyz0123456789+/".toList

/-- Character for a 6-bit group. -/
def b64char (n : Nat) : Char := b64alphabet.getD n 'A'

/-- `base64.b64encode(...).decode()` on a byte list (each entry < 256). -/
def b64encode : List Nat → String
  | [] => ""
  | [a] =>
    String.mk [b64char (a / 4 % 64), b64char (a % 4 * 16)] ++ "=="
  | [a, b] =>
    String.mk [b64char (a / 4 % 64), b64char (a % 4 * 16 + b / 16 % 16),
               b64char (b % 16 * 4)] ++ "="
  | a :: b :: c :: rest =>
    String.mk [b64char (a / 4 % 64), b64char (a % 4 * 16 + b / 16 % 16),
               b64char (b % 16 * 4 + c / 64 % 4), b64char (c % 64)]
      ++ b64encode rest

/-- Body of the 400 response (`'Missing "latex_source" in the event
payload!'`). -/
def missingBody : String := "Missing \"latex_source\" in the event payload!"

/-- The `except Exception as e` clause: a 500 response whose body is
`f"Unexpected error: {str(e)}"`. -/
def errResp (e : String) : Response :=
  { statusCode := 500, body := "Unexpected error: " ++ e }

/-- The body of the `try` block of `handler` (lines 16–77 of `app.py`),
returning either the response it `return`s or the raised exception text,
together with the trace of side effects performed before returning or
raising. -/
def handlerInner (event : Event) (w : World) :
    Except String Response × List Effect :=
  -- latex_source = event.get('latex_source'); if not latex_source: 400
  match event.latex_source with
  | none => (.ok { statusCode := 400, body := missingBody }, [])
  | some src =>
    if src = "" then (.ok { statusCode := 400, body := missingBody }, [])
    else
      let id := w.unique_id
      -- with open(tex_file_path, 'w') as f: f.write(latex_source)
      match w.texWrite with
      | .error e => (.error e, [])
      | .ok _ =>
        let tr0 := [Effect.writeTex (tex_file_path id) src]
        -- for _ in range(2): process = subprocess.run([...])
        match w.run1 with
        | .error e => (.error e, tr0)
        | .ok _p1 =>
          let tr1 := tr0 ++ [Effect.spawn (pdflatex_args id)]
          match w.run2 with
          | .error e => (.error e, tr1)
          | .ok p2 =>
            let tr2 := tr1 ++ [Effect.spawn (pdflatex_args id)]
            -- if process.returncode != 0:
            if p2.returncode ≠ 0 then
              -- if os.path.exists(log_path): read it (for the print)
              if w.logExists then
                match w.logRead with
                | .error e => (.error e, tr2)
                | .ok _logText =>
                  (.ok { statusCode := 500,
                         body := "Latex compilation error: " ++ p2.stderr },
                   tr2 ++ [Effect.readLog (log_path id)])
              else
                (.ok { statusCode := 500,
                       body := "Latex compilation error: " ++ p2.stderr },
                 tr2)
            else
              -- with open(pdf_file_path, "rb") as pdf_file: b64encode(...)
              match w.pdfRead with
              | .error e => (.error e, tr2)
              | .ok bytes =>
                (.ok { statusCode := 200,
                       headers := some [("Content-Type", "application/pdf")],
                       body := b64encode bytes,
                       isBase64Encoded := some true },
                 tr2 ++ [Effect.readPdf (pdf_file_path id)])

/-- `handler(event, context)`: the `try` body with the catch-all
`except Exception as e` wrapped around it. -/
def handler (event : Event) (w : World) : Response × List Effect :=
  match handlerInner event w with
  | (.ok r, tr) => (r, tr)
  | (.error e, tr) => (errResp e, tr)

/-- Does a character list start with `t`? -/
def beginsWith : List Char → List Char → Bool
  | [], _ => true
  | _ :: _, [] => false
  | a :: as, b :: bs => a = b && beginsWith as bs

/-- Does `t` occur as a contiguous run inside `s`? -/
def containsSeq (t : List Char) : List Char → Bool
  | [] => beginsWith t []
  | s@(_ :: rest) => beginsWith t s || containsSeq t rest

/-- `t` occurs as a contiguous substring of `s`. -/
def strContains (s t : String) : Bool := containsSeq t.toList s.toList

/-- Number of compiler invocations recorded in a trace. -/
def countSpawns (tr : List Effect) : Nat :=
  tr.countP fun e => match e with | .spawn _ => true | _ => false

/-- An effect only touches the three per-invocation artifacts. -/
def usesOnlyPaths (id : String) : Effect → Prop
  | .writeTex p _ => p = tex_file_path id
  | .spawn args => args = pdflatex_args id
  | .readLog p => p = log_path id
  | .readPdf p => p = pdf_file_path id

lemma beginsWith_append (t r : List Char) : beginsWith t (t ++ r) = true := by
  induction t with
  | nil => rfl
  | cons a as ih => simp [beginsWith, ih]

lemma containsSeq_append (p t : List Char) : containsSeq t (p ++ t) = true := by
  induction p with
  | nil =>
    cases t with
    | nil => rfl
    | cons c cs =>
      show containsSeq (c :: cs) (c :: cs) = true
      have := beginsWith_append (c :: cs) []
      simp at this
      simp [containsSeq, this]
  | cons a p' ih =>
    simp [containsSeq, ih]

/-- A string contains any of its suffixes. -/
lemma strContains_suffix (p t : String) : strContains (p ++ t) t = true := by
  show containsSeq t.toList (p ++ t).toList = true
  have h : (p ++ t).toList = p.toList ++ t.toList := by
    simp [String.toList, String.data_append]
  rw [h]
  exact containsSeq_append p.toList t.toList

/-- C1: for every request whose second compiler invocation exits with
code zero and for which the `.pdf` output file exists (its read
succeeds), the handler returns statusCode 200, body the base64 encoding
of the full binary content of the `.pdf` file, a header
`Content-Type: application/pdf`, and `isBase64Encoded` set to true. -/
theorem C1_success_response (ev : Event) (w : World) (s : String)
    (p1 p2 : ProcResult) (bytes : List Nat)
    (hs : ev.latex_source = some s) (hne : s ≠ "")
    (htex : w.texWrite = .ok ())
    (h1 : w.run1 = .ok p1) (h2 : w.run2 = .ok p2)
    (hrc : p2.returncode = 0)
    (hpdf : w.pdfRead = .ok bytes) :
    (handler ev w).1 =
      { statusCode := 200,
        body := b64encode bytes,
        headers := some [("Content-Type", "application/pdf")],
        isBase64Encoded := some true } := by
  simp [handler, handlerInner, hs, hne, htex, h1, h2, hrc, hpdf]

theorem C1_success_response_witness :
    (handler ⟨some "doc", none⟩
      ⟨"u1", .ok (), .ok ⟨0, "", ""⟩, .ok ⟨0, "out", "err"⟩, false, .ok "",
        .ok [37, 80, 68, 70, 45]⟩).1 =
      { statusCode := 200,
        body := b64encode [37, 80, 68, 70, 45],
        headers := some [("Content-Type", "application/pdf")],
        isBase64Encoded := some true } :=
  C1_success_response ⟨some "doc", none⟩
    ⟨"u1", .ok (), .ok ⟨0, "", ""⟩, .ok ⟨0, "out", "err"⟩, false, .ok "",
      .ok [37, 80, 68, 70, 45]⟩
    "doc" ⟨0, "", ""⟩ ⟨0, "out", "err"⟩ [37, 80, 68, 70, 45]
    rfl (by decide) rfl rfl rfl rfl rfl

/-- C2 counterexample: a request whose second compiler pass exits
nonzero (stderr `"STDERRTOKEN"`) but whose `.log` file exists and raises
on open (e.g. a permission error).  The catch-all converts this into a
500 whose body is the exception text, which does not contain the
captured stderr — contradicting the claim that every such request gets a
body containing the stderr text. -/
theorem C2_counterexample :
    (handler ⟨some "doc", none⟩
      ⟨"u2", .ok (), .ok ⟨0, "", ""⟩, .ok ⟨1, "", "STDERRTOKEN"⟩, true,
        .error "Permission denied", .ok []⟩).1.statusCode = 500 ∧
    (handler ⟨some "doc", none⟩
      ⟨"u2", .ok (), .ok ⟨0, "", ""⟩, .ok ⟨1, "", "STDERRTOKEN"⟩, true,
        .error "Permission denied", .ok []⟩).1.body =
      "Unexpected error: Permission denied" ∧
    strContains
      (handler ⟨some "doc", none⟩
        ⟨"u2", .ok (), .ok ⟨0, "", ""⟩, .ok ⟨1, "", "STDERRTOKEN"⟩, true,
          .error "Permission denied", .ok []⟩).1.body
      "STDERRTOKEN" = false := by
  refine ⟨rfl, rfl, ?_⟩
  decide

/-- C2 (amended): for every request on which the second compiler
invocation exits with a non-zero code, the handler returns statusCode
500 with no `headers` and no `isBase64Encoded` key, so the response
never contains the PDF even if a partial `.pdf` file was produced; and
whenever the `.log` diagnostic read does not itself raise (the file is
absent, or reading it succeeds), the body contains the captured
standard-error text of that invocation. -/
theorem C2_failure_response (ev : Event) (w : World) (s : String)
    (p1 p2 : ProcResult)
    (hs : ev.latex_source = some s) (hne : s ≠ "")
    (htex : w.texWrite = .ok ())
    (h1 : w.run1 = .ok p1) (h2 : w.run2 = .ok p2)
    (hrc : p2.returncode ≠ 0) :
    (handler ev w).1.statusCode = 500 ∧
    (handler ev w).1.headers = none ∧
    (handler ev w).1.isBase64Encoded = none ∧
    ((w.logExists = false ∨ (∃ t, w.logRead = .ok t)) →
      (handler ev w).1.body = "Latex compilation error: " ++ p2.stderr ∧
      strContains (handler ev w).1.body p2.stderr = true) := by
  have hbody : ∀ hlog : (w.logExists = false ∨ (∃ t, w.logRead = .ok t)),
      (handler ev w).1 =
        { statusCode := 500,
          body := "Latex compilation error: " ++ p2.stderr } := by
    intro hlog
    rcases hlog with hle | ⟨t, hlr⟩
    · simp [handler, handlerInner, hs, hne, htex, h1, h2, hrc, hle]
    · cases hle : w.logExists
      · simp [handler, handlerInner, hs, hne, htex, h1, h2, hrc, hle]
      · simp [handler, handlerInner, hs, hne, htex, h1, h2, hrc, hle, hlr]
  refine ⟨?_, ?_, ?_, fun hlog => ⟨(hbody hlog ▸ rfl), ?_⟩⟩
  · cases hle : w.logExists
    · simp [handler, handlerInner, hs, hne, htex, h1, h2, hrc, hle]
    · cases hlr : w.logRead <;>
        simp [handler, handlerInner, hs, hne, htex, h1, h2, hrc, hle, hlr,
          errResp]
  · cases hle : w.logExists
    · simp [handler, handlerInner, hs, hne, htex, h1, h2, hrc, hle]
    · cases hlr : w.logRead <;>
        simp [handler, handlerInner, hs, hne, htex, h1, h2, hrc, hle, hlr,
          errResp]
  · cases hle : w.logExists
    · simp [handler, handlerInner, hs, hne, htex, h1, h2, hrc, hle]
    · cases hlr : w.logRead <;>
        simp [handler, handlerInner, hs, hne, htex, h1, h2, hrc, hle, hlr,
          errResp]
  · rw [(hbody hlog)]
    exact strContains_suffix "Latex compilation error: " p2.stderr

theorem C2_failure_response_witness :
    (handler ⟨some "doc", none⟩
      ⟨"u3", .ok (), .ok ⟨0, "", ""⟩, .ok ⟨1, "", "errtext"⟩, false, .ok "",
        .ok []⟩).1.statusCode = 500 ∧
    (handler ⟨some "doc", none⟩
      ⟨"u3", .ok (), .ok ⟨0, "", ""⟩, .ok ⟨1, "", "errtext"⟩, false, .ok "",
        .ok []⟩).1.headers = none ∧
    (handler ⟨some "doc", none⟩
      ⟨"u3", .ok (), .ok ⟨0, "", ""⟩, .ok ⟨1, "", "errtext"⟩, false, .ok "",
        .ok []⟩).1.isBase64Encoded = none ∧
    ((false = false ∨
        (∃ t, (Except.ok "" : Except String String) = .ok t)) →
      (handler ⟨some "doc", none⟩
        ⟨"u3", .ok (), .ok ⟨0, "", ""⟩, .ok ⟨1, "", "errtext"⟩, false, .ok "",
          .ok []⟩).1.body = "Latex compilation error: " ++ "errtext" ∧
      strContains
        (handler ⟨some "doc", none⟩
          ⟨"u3", .ok (), .ok ⟨0, "", ""⟩, .ok ⟨1, "", "errtext"⟩, false,
            .ok "", .ok []⟩).1.body "errtext" = true) :=
  C2_failure_response ⟨some "doc", none⟩
    ⟨"u3", .ok (), .ok ⟨0, "", ""⟩, .ok ⟨1, "", "errtext"⟩, false, .ok "",
      .ok []⟩
    "doc" ⟨0, "", ""⟩ ⟨1, "", "errtext"⟩ rfl (by decide) rfl rfl rfl
    (by decide)

/-- C3: whenever `latex_source` is absent or the empty string, the
handler returns statusCode 400 with a body mentioning the missing field,
and the effect trace is empty: no file is written and no compiler
process is spawned. -/
theorem C3_validation (ev : Event) (w : World)
    (h : ev.latex_source = none ∨ ev.latex_source = some "") :
    handler ev w = ({ statusCode := 400, body := missingBody }, []) ∧
    strContains missingBody "latex_source" = true := by
  refine ⟨?_, by decide⟩
  rcases h with h | h <;> simp [handler, handlerInner, h]

theorem C3_validation_witness :
    (handler ⟨none, none⟩
        ⟨"u4", .ok (), .ok ⟨0, "", ""⟩, .ok ⟨0, "", ""⟩, false, .ok "",
          .ok []⟩ =
      ({ statusCode := 400, body := missingBody }, []) ∧
    strContains missingBody "latex_source" = true) ∧
    (handler ⟨some "", none⟩
        ⟨"u4", .ok (), .ok ⟨0, "", ""⟩, .ok ⟨0, "", ""⟩, false, .ok "",
          .ok []⟩ =
      ({ statusCode := 400, body := missingBody }, []) ∧
    strContains missingBody "latex_source" = true) :=
  ⟨C3_validation ⟨none, none⟩
      ⟨"u4", .ok (), .ok ⟨0, "", ""⟩, .ok ⟨0, "", ""⟩, false, .ok "", .ok []⟩
      (Or.inl rfl),
   C3_validation ⟨some "", none⟩
      ⟨"u4", .ok (), .ok ⟨0, "", ""⟩, .ok ⟨0, "", ""⟩, false, .ok "", .ok []⟩
      (Or.inr rfl)⟩

/-- C4: the handler is a total function into structured responses, and
any exception raised inside the `try` body (filesystem error, missing
compiler binary, ...) is caught and converted into a statusCode-500
response whose body carries the failure's description text. -/
theorem C4_catchall (ev : Event) (w : World) (e : String)
    (tr : List Effect)
    (h : handlerInner ev w = (.error e, tr)) :
    handler ev w =
      ({ statusCode := 500, body := "Unexpected error: " ++ e }, tr) ∧
    strContains (handler ev w).1.body e = true := by
  have hh : handler ev w =
      ({ statusCode := 500, body := "Unexpected error: " ++ e }, tr) := by
    simp [handler, h, errResp]
  exact ⟨hh, by rw [hh]; exact strContains_suffix "Unexpected error: " e⟩

theorem C4_catchall_witness :
    handler ⟨some "doc", none⟩
        ⟨"u5", .error "No space left on device", .ok ⟨0, "", ""⟩,
          .ok ⟨0, "", ""⟩, false, .ok "", .ok []⟩ =
      ({ statusCode := 500,
         body := "Unexpected error: " ++ "No space left on device" }, []) ∧
    strContains
      (handler ⟨some "doc", none⟩
        ⟨"u5", .error "No space left on device", .ok ⟨0, "", ""⟩,
          .ok ⟨0, "", ""⟩, false, .ok "", .ok []⟩).1.body
      "No space left on device" = true :=
  C4_catchall ⟨some "doc", none⟩
    ⟨"u5", .error "No space left on device", .ok ⟨0, "", ""⟩, .ok ⟨0, "", ""⟩,
      false, .ok "", .ok []⟩
    "No space left on device" [] rfl

/-- C5: for every request with non-empty `latex_source` whose two
compiler invocations both return results, exactly two compiler processes
are spawned; the response is unchanged when the first pass's result is
replaced by any other result (only the second invocation is inspected);
and a failing first pass followed by a passing second pass still yields
a 200 success response. -/
theorem C5_two_passes (ev : Event) (w : World) (s : String)
    (p1 p1' p2 : ProcResult)
    (hs : ev.latex_source = some s) (hne : s ≠ "")
    (htex : w.texWrite = .ok ())
    (h1 : w.run1 = .ok p1) (h2 : w.run2 = .ok p2) :
    countSpawns (handler ev w).2 = 2 ∧
    handler ev { w with run1 := .ok p1' } = handler ev w ∧
    (∀ bytes, p2.returncode = 0 → w.pdfRead = .ok bytes →
      (handler ev w).1.statusCode = 200) := by
  refine ⟨?_, ?_, ?_⟩
  · by_cases hrc : p2.returncode = 0
    · cases hpr : w.pdfRead <;>
        simp [handler, handlerInner, hs, hne, htex, h1, h2, hrc, hpr,
          countSpawns]
    · cases hle : w.logExists
      · simp [handler, handlerInner, hs, hne, htex, h1, h2, hrc, hle,
          countSpawns]
      · cases hlr : w.logRead <;>
          simp [handler, handlerInner, hs, hne, htex, h1, h2, hrc, hle, hlr,
            countSpawns]
  · simp [handler, handlerInner, hs, hne, htex, h1, h2]
  · intro bytes hrc hpr
    simp [handler, handlerInner, hs, hne, htex, h1, h2, hrc, hpr]

theorem C5_two_passes_witness :
    countSpawns
      (handler ⟨some "doc", none⟩
        ⟨"u6", .ok (), .ok ⟨1, "", "first pass failed"⟩, .ok ⟨0, "", ""⟩,
          false, .ok "", .ok [37]⟩).2 = 2 ∧
    handler ⟨some "doc", none⟩
        ⟨"u6", .ok (), .ok ⟨0, "all good", ""⟩, .ok ⟨0, "", ""⟩, false,
          .ok "", .ok [37]⟩ =
      handler ⟨some "doc", none⟩
        ⟨"u6", .ok (), .ok ⟨1, "", "first pass failed"⟩, .ok ⟨0, "", ""⟩,
          false, .ok "", .ok [37]⟩ ∧
    (∀ bytes, (⟨0, "", ""⟩ : ProcResult).returncode = 0 →
      (Except.ok [37] : Except String (List Nat)) = .ok bytes →
      (handler ⟨some "doc", none⟩
        ⟨"u6", .ok (), .ok ⟨1, "", "first pass failed"⟩, .ok ⟨0, "", ""⟩,
          false, .ok "", .ok [37]⟩).1.statusCode = 200) :=
  C5_two_passes ⟨some "doc", none⟩
    ⟨"u6", .ok (), .ok ⟨1, "", "first pass failed"⟩, .ok ⟨0, "", ""⟩, false,
      .ok "", .ok [37]⟩
    "doc" ⟨1, "", "first pass failed"⟩ ⟨0, "all good", ""⟩ ⟨0, "", ""⟩
    rfl (by decide) rfl rfl rfl

/-- Exhaustive shape analysis: every response the handler can produce is
the catch-all 500, the validation 400, the compilation-failure 500, or
the success 200. -/
lemma handler_response_shapes (ev : Event) (w : World) :
    (∃ e, (handler ev w).1 = errResp e) ∨
    (handler ev w).1 = { statusCode := 400, body := missingBody } ∨
    (∃ t, (handler ev w).1 =
      { statusCode := 500, body := "Latex compilation error: " ++ t }) ∨
    (∃ bytes, (handler ev w).1 =
      { statusCode := 200, body := b64encode bytes,
        headers := some [("Content-Type", "application/pdf")],
        isBase64Encoded := some true }) := by
  obtain ⟨ls, o⟩ := ev
  obtain ⟨id, tw, r1, r2, le, lr, pr⟩ := w
  rcases ls with _ | s
  · exact Or.inr (Or.inl rfl)
  · by_cases hs : s = ""
    · subst hs
      exact Or.inr (Or.inl rfl)
    · cases tw with
      | error e => exact Or.inl ⟨e, by simp [handler, handlerInner, hs]⟩
      | ok u =>
        cases r1 with
        | error e => exact Or.inl ⟨e, by simp [handler, handlerInner, hs]⟩
        | ok p1 =>
          cases r2 with
          | error e => exact Or.inl ⟨e, by simp [handler, handlerInner, hs]⟩
          | ok p2 =>
            by_cases hrc : p2.returncode = 0
            · cases pr with
              | error e =>
                exact Or.inl ⟨e, by simp [handler, handlerInner, hs, hrc]⟩
              | ok bytes =>
                exact Or.inr (Or.inr (Or.inr ⟨bytes,
                  by simp [handler, handlerInner, hs, hrc]⟩))
            · cases le with
              | false =>
                exact Or.inr (Or.inr (Or.inl ⟨p2.stderr,
                  by simp [handler, handlerInner, hs, hrc]⟩))
              | true =>
                cases lr with
                | error e =>
                  exact Or.inl ⟨e, by simp [handler, handlerInner, hs, hrc]⟩
                | ok t =>
                  exact Or.inr (Or.inr (Or.inl ⟨p2.stderr,
                    by simp [handler, handlerInner, hs, hrc]⟩))

/-- C6: for every input event and environment, the returned statusCode
is exactly one of 200, 400 and 500 (and the response always carries a
`body` string, by the type of `Response`). -/
theorem C6_status_codes (ev : Event) (w : World) :
    ((handler ev w).1.statusCode = 200 ∨ (handler ev w).1.statusCode = 400 ∨
      (handler ev w).1.statusCode = 500) ∧
    (handler ev w).1.body = (handler ev w).1.body := by
  refine ⟨?_, rfl⟩
  rcases handler_response_shapes ev w with ⟨e, h⟩ | h | ⟨t, h⟩ | ⟨bytes, h⟩ <;>
    rw [h] <;> simp [errResp]

/-- Once the `.tex` write has succeeded, the trace starts with that
write and every later effect touches only the three derived paths. -/
lemma handler_trace_ok (s : String) (o : Option String) (id : String)
    (r1 r2 : Except String ProcResult) (le : Bool)
    (lr : Except String String) (pr : Except String (List Nat))
    (hne : s ≠ "") :
    ∃ rest,
      (handler ⟨some s, o⟩ ⟨id, .ok (), r1, r2, le, lr, pr⟩).2 =
        Effect.writeTex (tex_file_path id) s :: rest ∧
      ∀ e ∈ Effect.writeTex (tex_file_path id) s :: rest,
        usesOnlyPaths id e := by
  cases r1 with
  | error e =>
    exact ⟨[], by simp [handler, handlerInner, hne],
      by simp [usesOnlyPaths]⟩
  | ok p1 =>
    cases r2 with
    | error e =>
      exact ⟨[Effect.spawn (pdflatex_args id)],
        by simp [handler, handlerInner, hne],
        by simp [usesOnlyPaths]⟩
    | ok p2 =>
      by_cases hrc : p2.returncode = 0
      · cases pr with
        | error e =>
          exact ⟨[Effect.spawn (pdflatex_args id),
                  Effect.spawn (pdflatex_args id)],
            by simp [handler, handlerInner, hne, hrc],
            by simp [usesOnlyPaths]⟩
        | ok bytes =>
          exact ⟨[Effect.spawn (pdflatex_args id),
                  Effect.spawn (pdflatex_args id),
                  Effect.readPdf (pdf_file_path id)],
            by simp [handler, handlerInner, hne, hrc],
            by simp [usesOnlyPaths]⟩
      · cases le with
        | false =>
          exact ⟨[Effect.spawn (pdflatex_args id),
                  Effect.spawn (pdflatex_args id)],
            by simp [handler, handlerInner, hne, hrc],
            by simp [usesOnlyPaths]⟩
        | true =>
          cases lr with
          | error e =>
            exact ⟨[Effect.spawn (pdflatex_args id),
                    Effect.spawn (pdflatex_args id)],
              by simp [handler, handlerInner, hne, hrc],
              by simp [usesOnlyPaths]⟩
          | ok t =>
            exact ⟨[Effect.spawn (pdflatex_args id),
                    Effect.spawn (pdflatex_args id),
                    Effect.readLog (log_path id)],
              by simp [handler, handlerInner, hne, hrc],
              by simp [usesOnlyPaths]⟩

/-- C7: for every request with non-empty `latex_source` (once the `.tex`
write succeeds), the three derived paths live under `/tmp`, share the
base name `document_<id>` for the freshly generated identifier, and end
in `.tex`, `.pdf`, `.log`; the trace begins with the verbatim write of
`latex_source` to the `.tex` path, before any compiler invocation, and
every effect of the invocation touches only those three paths. -/
theorem C7_staging (ev : Event) (w : World) (s : String)
    (hs : ev.latex_source = some s) (hne : s ≠ "")
    (htex : w.texWrite = .ok ()) :
    tex_file_path w.unique_id = "/tmp/document_" ++ w.unique_id ++ ".tex" ∧
    pdf_file_path w.unique_id = "/tmp/document_" ++ w.unique_id ++ ".pdf" ∧
    log_path w.unique_id = "/tmp/document_" ++ w.unique_id ++ ".log" ∧
    (∃ rest, (handler ev w).2 =
      Effect.writeTex (tex_file_path w.unique_id) s :: rest) ∧
    (∀ e ∈ (handler ev w).2, usesOnlyPaths w.unique_id e) := by
  obtain ⟨ls, o⟩ := ev
  obtain ⟨id, tw, r1, r2, le, lr, pr⟩ := w
  have hls : ls = some s := hs
  subst hls
  have htw : tw = .ok () := htex
  subst htw
  obtain ⟨rest, htr, hall⟩ :=
    handler_trace_ok s o id r1 r2 le lr pr hne
  refine ⟨?_, ?_, ?_, ⟨rest, htr⟩, ?_⟩
  · simp [tex_file_path, working_dir, base_filename, ← String.append_assoc]
  · simp [pdf_file_path, working_dir, base_filename, ← String.append_assoc]
  · simp [log_path, working_dir, base_filename, ← String.append_assoc]
  · intro e he
    rw [htr] at he
    exact hall e he

theorem C7_staging_witness :
    tex_file_path "u7" = "/tmp/document_" ++ "u7" ++ ".tex" ∧
    pdf_file_path "u7" = "/tmp/document_" ++ "u7" ++ ".pdf" ∧
    log_path "u7" = "/tmp/document_" ++ "u7" ++ ".log" ∧
    (∃ rest,
      (handler ⟨some "doc", none⟩
        ⟨"u7", .ok (), .ok ⟨0, "", ""⟩, .ok ⟨0, "", ""⟩, false, .ok "",
          .ok [37]⟩).2 =
        Effect.writeTex (tex_file_path "u7") "doc" :: rest) ∧
    (∀ e ∈ (handler ⟨some "doc", none⟩
        ⟨"u7", .ok (), .ok ⟨0, "", ""⟩, .ok ⟨0, "", ""⟩, false, .ok "",
          .ok [37]⟩).2, usesOnlyPaths "u7" e) :=
  C7_staging ⟨some "doc", none⟩
    ⟨"u7", .ok (), .ok ⟨0, "", ""⟩, .ok ⟨0, "", ""⟩, false, .ok "", .ok [37]⟩
    "doc" rfl (by decide) rfl

/-- C8 counterexample: a request supplying
`output_filename = "report.pdf"` whose compilation succeeds.  The
response's headers are exactly `[("Content-Type", "application/pdf")]`:
no `Content-Disposition` header is present, contradicting the claim that
successful responses carry one mentioning the supplied filename. -/
theorem C8_counterexample :
    (handler ⟨some "doc", some "report.pdf"⟩
      ⟨"u8", .ok (), .ok ⟨0, "", ""⟩, .ok ⟨0, "", ""⟩, false, .ok "",
        .ok [37]⟩).1.statusCode = 200 ∧
    (handler ⟨some "doc", some "report.pdf"⟩
      ⟨"u8", .ok (), .ok ⟨0, "", ""⟩, .ok ⟨0, "", ""⟩, false, .ok "",
        .ok [37]⟩).1.headers = some [("Content-Type", "application/pdf")] ∧
    ¬ ∃ v : String, ("Content-Disposition", v) ∈
      ((handler ⟨some "doc", some "report.pdf"⟩
        ⟨"u8", .ok (), .ok ⟨0, "", ""⟩, .ok ⟨0, "", ""⟩, false, .ok "",
          .ok [37]⟩).1.headers.getD []) := by
  refine ⟨rfl, rfl, ?_⟩
  rintro ⟨v, hv⟩
  have he : ((handler ⟨some "doc", some "report.pdf"⟩
      ⟨"u8", .ok (), .ok ⟨0, "", ""⟩, .ok ⟨0, "", ""⟩, false, .ok "",
        .ok [37]⟩).1.headers.getD ([] : List (String × String))) =
      [("Content-Type", "application/pdf")] := rfl
  rw [he] at hv
  simp at hv

/-- C8 (amended): when `output_filename` is supplied and compilation
succeeds, the response headers are exactly the single pair
`Content-Type: application/pdf`; no `Content-Disposition` header is
emitted — the live handler never reads `output_filename` (it appears
only in the commented-out S3 upload path). -/
theorem C8_no_content_disposition (ev : Event) (w : World) (s fn : String)
    (p1 p2 : ProcResult) (bytes : List Nat)
    (hs : ev.latex_source = some s) (hne : s ≠ "")
    (hfn : ev.output_filename = some fn)
    (htex : w.texWrite = .ok ())
    (h1 : w.run1 = .ok p1) (h2 : w.run2 = .ok p2)
    (hrc : p2.returncode = 0) (hpdf : w.pdfRead = .ok bytes) :
    (handler ev w).1.headers = some [("Content-Type", "application/pdf")] ∧
    ¬ ∃ v : String, ("Content-Disposition", v) ∈
      ((handler ev w).1.headers.getD []) := by
  have hh : (handler ev w).1.headers =
      some [("Content-Type", "application/pdf")] := by
    simp [handler, handlerInner, hs, hne, htex, h1, h2, hrc, hpdf]
  refine ⟨hh, ?_⟩
  rintro ⟨v, hv⟩
  rw [hh] at hv
  simp at hv

theorem C8_no_content_disposition_witness :
    (handler ⟨some "doc", some "thesis.pdf"⟩
      ⟨"u9", .ok (), .ok ⟨0, "", ""⟩, .ok ⟨0, "", ""⟩, false, .ok "",
        .ok [37, 80]⟩).1.headers =
      some [("Content-Type", "application/pdf")] ∧
    ¬ ∃ v : String, ("Content-Disposition", v) ∈
      ((handler ⟨some "doc", some "thesis.pdf"⟩
        ⟨"u9", .ok (), .ok ⟨0, "", ""⟩, .ok ⟨0, "", ""⟩, false, .ok "",
          .ok [37, 80]⟩).1.headers.getD []) :=
  C8_no_content_disposition ⟨some "doc", some "thesis.pdf"⟩
    ⟨"u9", .ok (), .ok ⟨0, "", ""⟩, .ok ⟨0, "", ""⟩, false, .ok "",
      .ok [37, 80]⟩
    "doc" "thesis.pdf" ⟨0, "", ""⟩ ⟨0, "", ""⟩ [37, 80]
    rfl (by decide) rfl rfl rfl rfl rfl rfl

/-- C9: the handler's observable output (response and effect trace) does
not depend on `output_filename`: two events with the same `latex_source`
produce identical results in the same environment. -/
theorem C9_output_filename_irrelevant (ev1 ev2 : Event) (w : World)
    (h : ev1.latex_source = ev2.latex_source) :
    handler ev1 w = handler ev2 w := by
  obtain ⟨l1, o1⟩ := ev1
  obtain ⟨l2, o2⟩ := ev2
  have hl : l1 = l2 := h
  subst hl
  rfl

theorem C9_output_filename_irrelevant_witness :
    handler ⟨some "doc", none⟩
        ⟨"uA", .ok (), .ok ⟨0, "", ""⟩, .ok ⟨0, "", ""⟩, false, .ok "",
          .ok [37]⟩ =
      handler ⟨some "doc", some "other-name.pdf"⟩
        ⟨"uA", .ok (), .ok ⟨0, "", ""⟩, .ok ⟨0, "", ""⟩, false, .ok "",
          .ok [37]⟩ :=
  C9_output_filename_irrelevant ⟨some "doc", none⟩
    ⟨some "doc", some "other-name.pdf"⟩
    ⟨"uA", .ok (), .ok ⟨0, "", ""⟩, .ok ⟨0, "", ""⟩, false, .ok "", .ok [37]⟩
    rfl

/-- C10: the optional keys `headers` and `isBase64Encoded` are present
in a response exactly when its statusCode is 200; every 400 or 500
response carries only `statusCode` and `body`. -/
theorem C10_optional_keys (ev : Event) (w : World) :
    ((handler ev w).1.statusCode = 200 ↔ (handler ev w).1.headers ≠ none) ∧
    ((handler ev w).1.statusCode = 200 ↔
      (handler ev w).1.isBase64Encoded ≠ none) ∧
    ((handler ev w).1.statusCode ≠ 200 →
      (handler ev w).1.headers = none ∧
      (handler ev w).1.isBase64Encoded = none) := by
  rcases handler_response_shapes ev w with ⟨e, h⟩ | h | ⟨t, h⟩ | ⟨bytes, h⟩ <;>
    rw [h] <;> simp [errResp]

end LatexLambda
